import Mathlib

/-
Verification of the FI personal-finance formula library (fi/fi.py and
fi_commands.py) against its specification. Monetary amounts, rates and
percentages are embedded as exact rationals (the source computes with
Python Decimal); Python float results that can be infinity or not-a-number
are embedded in the inductive type PyVal; Decimal division, whose
exceptions some functions catch and some propagate, is embedded as an
Except value.
-/

/-- Result of a library function returning a Python number that can be a
finite value, positive infinity, or not-a-number. -/
inductive PyVal where
  | num (q : ℚ)
  | inf
  | nan
deriving DecidableEq

/-- Exception signalled by a zero-divisor Decimal division in Python:
x/0 with x ≠ 0 raises DivisionByZero (a subclass of ZeroDivisionError),
while 0/0 raises InvalidOperation (not a subclass of ZeroDivisionError). -/
inductive DecErr where
  | divisionByZero
  | invalidOperation
deriving DecidableEq

/-- Division of Python Decimal values: 0/0 raises InvalidOperation, x/0 with
x ≠ 0 raises DivisionByZero, otherwise the exact quotient is returned. -/
def decDiv (a b : ℚ) : Except DecErr ℚ :=
  if b = 0 then
    if a = 0 then .error .invalidOperation else .error .divisionByZero
  else .ok (a / b)

/-- Embedding of fi.annual_cost: Money(Decimal(cost) - Decimal(used_price)) /
Decimal(years_in_service). The bare Decimal division propagates its exception
when the divisor is zero. -/
def annual_cost (cost used_price years_in_service : ℚ) : Except DecErr ℚ :=
  decDiv (cost - used_price) years_in_service

/-- Embedding of fi.cost_per_use: delegates to annual_cost. -/
def cost_per_use (your_cost used_price times_used : ℚ) : Except DecErr ℚ :=
  annual_cost your_cost used_price times_used

/-- Embedding of fi.fi_number: Money(Decimal(planned_yearly_expenses) *
Decimal(100.0)) / Decimal(withdrawal_rate), a bare Decimal division. -/
def fi_number (planned_yearly_expenses withdrawal_rate : ℚ) : Except DecErr ℚ :=
  decDiv (planned_yearly_expenses * 100) withdrawal_rate

/-- Embedding of fi.hours_of_life_energy: float division wrapped in
try/except ZeroDivisionError returning 0. A Python float division by zero
(including 0/0) always raises ZeroDivisionError, so a zero wage yields 0. -/
def hours_of_life_energy (money_spent real_hourly_wage : ℚ) : ℚ :=
  if real_hourly_wage = 0 then 0 else money_spent / real_hourly_wage

/-- Embedding of fi.savings_rate: ((take_home_pay - spending)/take_home_pay)*100
computed with Decimal, wrapped in try/except ZeroDivisionError returning 0.
Decimal InvalidOperation (raised by 0/0) is not a ZeroDivisionError and
therefore escapes the except clause. -/
def savings_rate (take_home_pay spending : ℚ) : Except DecErr ℚ :=
  match decDiv (take_home_pay - spending) take_home_pay with
  | .ok q => .ok (q * 100)
  | .error .divisionByZero => .ok 0
  | .error .invalidOperation => .error .invalidOperation

/-- Embedding of fi.percent_decrease: abs(((ov - fv)/ov)*100) under
try/except ZeroDivisionError returning nan. -/
def percent_decrease (original_value final_value : ℚ) : PyVal :=
  if original_value = 0 then .nan
  else .num |(original_value - final_value) / original_value * 100|

/-- Embedding of fi.percent_increase: ((fv - ov)/abs(ov))*100 under
try/except ZeroDivisionError returning nan. -/
def percent_increase (original_value final_value : ℚ) : PyVal :=
  if original_value = 0 then .nan
  else .num ((final_value - original_value) / |original_value| * 100)

/-- Embedding of fi.rule_of_72: returns float('inf') on a zero rate, else
69.3/rate when accurate, 72.0/rate otherwise. -/
def rule_of_72 (interest_rate : ℚ) (accurate : Bool) : PyVal :=
  if interest_rate = 0 then .inf
  else if accurate then .num (693 / 10 / interest_rate)
  else .num (72 / interest_rate)

/-- Embedding of fi.coast_fi: target / (1 + eiar/100) ^ (retirement_age -
current_age), with the age difference as an integer exponent. -/
def coast_fi (target_fi_num eiar : ℚ) (retirement_age current_age : ℤ) : ℚ :=
  target_fi_num / (1 + eiar / 100) ^ (retirement_age - current_age)

/-- Embedding of Decimal.quantize(Decimal('0.01'), ROUND_HALF_UP): round to
two decimal places, ties away from zero. -/
def roundHalfUpCents (q : ℚ) : ℚ :=
  if 0 ≤ q then (⌊q * 100 + 1/2⌋ : ℚ) / 100
  else -((⌊-(q * 100) + 1/2⌋ : ℚ) / 100)

/-- Embedding of fi.redeem_points: points * (rate/100), quantized to cents
with ROUND_HALF_UP. -/
def redeem_points (points rate : ℚ) : ℚ :=
  roundHalfUpCents (points * (rate / 100))

/-- Embedding of fi.redeem_chase_points: a dictionary of four redemption
scenarios, embedded as an association list preserving the source's keys. -/
def redeem_chase_points (points : ℚ) : List (String × ℚ) :=
  [("Cash value", redeem_points points 1),
   ("Sapphire Preferred portal", redeem_points points (125/100)),
   ("Sapphire Reserve portal", redeem_points points (15/10)),
   ("Target partner exchange", redeem_points points 2)]

/-- Embedding of the data flow of fi_commands.run_redeem_chase_points: it calls
fi.redeem_chase_points and subscripts the result with the keys 'cv', 'spp',
'srp' and 'tpe'. A failed dictionary subscript is a KeyError, embedded as
none: the handler prints its report only when all four lookups succeed. -/
def run_redeem_chase_points (points : ℚ) : Option (ℚ × ℚ × ℚ × ℚ) :=
  let cp := redeem_chase_points points
  match cp.lookup "cv", cp.lookup "spp", cp.lookup "srp", cp.lookup "tpe" with
  | some cv, some spp, some srp, some tpe => some (cv, spp, srp, tpe)
  | _, _, _, _ => none

/-- Embedding of fi.future_value: present_value * (1 + rate_per_period) ^
(periods_per_year * years) with rate_per_period = annual_rate/100/periods_per_year. -/
def future_value (present_value annual_rate : ℚ) (periods_per_year years : ℕ) : ℚ :=
  present_value * (1 + annual_rate / 100 / (periods_per_year : ℚ)) ^ (periods_per_year * years)

/-- Modelled from the spec: the compounding-with-withdrawal (drawdown) variant
of future_value, exercised by the repository's test suite but missing from
src/fi/fi.py. In each of the periods_per_year * years periods it applies growth
at the per-period rate annual_rate/100/periods_per_year, subtracts the
per-period drawdown, and floors the balance at zero once the portfolio is
depleted; the final balance is returned. -/
def future_value_drawdown
    (present_value annual_rate : ℚ) (periods_per_year years : ℕ) (drawdown : ℚ) : ℚ :=
  (List.range (periods_per_year * years)).foldl
    (fun balance _ =>
      max 0 (balance * (1 + annual_rate / 100 / (periods_per_year : ℚ)) - drawdown))
    present_value

/-- Modelled from the spec: monthly_payment, exercised by the repository's test
suite but missing from src/fi/fi.py. The standard annuity-payment closed form
over years*12 monthly periods at the monthly rate annual_rate/100/12; for the
0%-rate edge case, simple division of the principal by the number of periods. -/
def monthly_payment (principal annual_rate : ℚ) (years : ℕ) : ℚ :=
  if annual_rate = 0 then principal / ((years * 12 : ℕ) : ℚ)
  else
    principal * (annual_rate / 100 / 12) * (1 + annual_rate / 100 / 12) ^ (years * 12) /
      ((1 + annual_rate / 100 / 12) ^ (years * 12) - 1)

/-- Modelled from the spec: total_interest, exercised by the repository's test
suite but missing from src/fi/fi.py. Total interest paid is
payment × periods − principal. -/
def total_interest (principal annual_rate : ℚ) (years : ℕ) : ℚ :=
  monthly_payment principal annual_rate years * ((years * 12 : ℕ) : ℚ) - principal

/-- Helper: future_value_drawdown with one period per year does nothing over
zero years. -/
theorem future_value_drawdown_zero (pv r d : ℚ) :
    future_value_drawdown pv r 1 0 d = pv := by
  simp [future_value_drawdown]

/-- Helper: the one-more-period recurrence of future_value_drawdown with one
period per year. -/
theorem future_value_drawdown_succ (pv r d : ℚ) (y : ℕ) :
    future_value_drawdown pv r 1 (y + 1) d =
      max 0 (future_value_drawdown pv r 1 y d * (1 + r / 100) - d) := by
  simp [future_value_drawdown, one_mul, List.range_succ]

/-- Claim C1 (amortization): a 200000 principal at 6% over 30 years yields a
monthly payment in [1199.10, 1199.11) and total interest in [231676, 231677);
a 0%-rate loan of 12000 over 5 years yields an exact payment of 200.00 and
zero total interest; for a 0% rate the payment is the principal divided by the
number of periods; and total interest always equals payment times periods
minus principal. -/
theorem C1_amortization :
    ((119910 / 100 : ℚ) ≤ monthly_payment 200000 6 30 ∧
      monthly_payment 200000 6 30 < 119911 / 100) ∧
    ((231676 : ℚ) ≤ total_interest 200000 6 30 ∧
      total_interest 200000 6 30 < 231677) ∧
    monthly_payment 12000 0 5 = 200 ∧
    total_interest 12000 0 5 = 0 ∧
    (∀ (p : ℚ) (y : ℕ), monthly_payment p 0 y = p / ((y * 12 : ℕ) : ℚ)) ∧
    (∀ (p r : ℚ) (y : ℕ),
      total_interest p r y = monthly_payment p r y * ((y * 12 : ℕ) : ℚ) - p) := by
  refine ⟨⟨?_, ?_⟩, ⟨?_, ?_⟩, ?_, ?_, fun p y => ?_, fun p r y => ?_⟩
  · norm_num [monthly_payment]
  · norm_num [monthly_payment]
  · norm_num [total_interest, monthly_payment]
  · norm_num [total_interest, monthly_payment]
  · norm_num [monthly_payment]
  · norm_num [total_interest, monthly_payment]
  · simp [monthly_payment]
  · simp [total_interest]

/-- Claim C2 (compounding with withdrawal): zero periods return the starting
balance unchanged; each further period applies growth and subtracts the
drawdown, floored at zero; once the balance is depleted the result stays zero
for any nonnegative drawdown and any rate at least -100; and on the
repository's own test inputs, 100000 at 7% with a 10000 drawdown over 5 annual
periods leaves exactly 82747.78297 while 50000 at 5% with a 20000 drawdown
over 10 annual periods is depleted to 0. -/
theorem C2_future_value_drawdown :
    (∀ pv r d : ℚ, future_value_drawdown pv r 1 0 d = pv) ∧
    (∀ (pv r d : ℚ) (y : ℕ),
      future_value_drawdown pv r 1 (y + 1) d =
        max 0 (future_value_drawdown pv r 1 y d * (1 + r / 100) - d)) ∧
    (∀ (pv r d : ℚ) (y : ℕ), pv ≤ 0 → 0 ≤ d → -100 ≤ r →
      future_value_drawdown pv r 1 (y + 1) d = 0) ∧
    future_value_drawdown 100000 7 1 5 10000 = 8274778297 / 100000 ∧
    future_value_drawdown 50000 5 1 10 20000 = 0 := by
  refine ⟨future_value_drawdown_zero, future_value_drawdown_succ, ?_, ?_, ?_⟩
  · intro pv r d y hpv hd hr
    induction y with
    | zero =>
      rw [future_value_drawdown_succ, future_value_drawdown_zero]
      have hrr : (0 : ℚ) ≤ 1 + r / 100 := by linarith
      have hmul : pv * (1 + r / 100) ≤ 0 := mul_nonpos_of_nonpos_of_nonneg hpv hrr
      have : pv * (1 + r / 100) - d ≤ 0 := by linarith
      exact max_eq_left this
    | succ n ih =>
      rw [future_value_drawdown_succ, ih]
      have : (0 : ℚ) * (1 + r / 100) - d ≤ 0 := by linarith
      exact max_eq_left this
  · norm_num [future_value_drawdown, List.range_succ]
  · norm_num [future_value_drawdown, List.range_succ]

/-- Witness for claim C2: the depletion clause at the concrete input
(-5, 5%, drawdown 3, one period) and the zero-period clause at 0. -/
theorem C2_future_value_drawdown_witness :
    future_value_drawdown (-5) 5 1 1 3 = 0 ∧ future_value_drawdown 0 0 1 0 0 = 0 :=
  ⟨C2_future_value_drawdown.2.2.1 (-5) 5 3 0 (by norm_num) (by norm_num) (by norm_num),
   C2_future_value_drawdown.1 0 0 0⟩

/-- Claim C3 as stated is false: annual_cost with years_in_service = 0
propagates the Decimal DivisionByZero exception instead of returning a
sentinel value, and so does fi_number with withdrawal_rate = 0. -/
theorem C3_counterexample :
    annual_cost 1 0 0 = Except.error DecErr.divisionByZero ∧
    fi_number 40000 0 = Except.error DecErr.divisionByZero := by
  constructor <;> norm_num [annual_cost, fi_number, decDiv]

/-- Claim C3 amended: the zero-divisor sentinel policy is per-function but not
universal. hours_of_life_energy returns 0, rule_of_72 returns positive
infinity, percent_decrease and percent_increase return not-a-number, and
savings_rate returns 0 for zero take-home pay with nonzero spending; but
annual_cost with years_in_service = 0 and fi_number with withdrawal_rate = 0
propagate the division-by-zero exception instead of returning a sentinel. -/
theorem C3_sentinel_policies :
    (∀ m : ℚ, hours_of_life_energy m 0 = 0) ∧
    (∀ a : Bool, rule_of_72 0 a = PyVal.inf) ∧
    (∀ f : ℚ, percent_decrease 0 f = PyVal.nan) ∧
    (∀ f : ℚ, percent_increase 0 f = PyVal.nan) ∧
    (∀ s : ℚ, s ≠ 0 → savings_rate 0 s = Except.ok 0) ∧
    (∀ c u : ℚ, c ≠ u → annual_cost c u 0 = Except.error DecErr.divisionByZero) ∧
    (∀ p : ℚ, p ≠ 0 → fi_number p 0 = Except.error DecErr.divisionByZero) := by
  refine ⟨fun m => ?_, fun a => ?_, fun f => ?_, fun f => ?_,
    fun s hs => ?_, fun c u hcu => ?_, fun p hp => ?_⟩
  · simp [hours_of_life_energy]
  · simp [rule_of_72]
  · simp [percent_decrease]
  · simp [percent_increase]
  · simp [savings_rate, decDiv, zero_sub, neg_eq_zero, hs]
  · simp [annual_cost, decDiv, sub_eq_zero, hcu]
  · simp [fi_number, decDiv, hp]

/-- Witness for claim C3 amended: each clause at a concrete input. -/
theorem C3_sentinel_policies_witness :
    hours_of_life_energy 80 0 = 0 ∧
    rule_of_72 0 true = PyVal.inf ∧
    percent_decrease 0 (-5) = PyVal.nan ∧
    percent_increase 0 10 = PyVal.nan ∧
    savings_rate 0 300 = Except.ok 0 ∧
    annual_cost 75 70 0 = Except.error DecErr.divisionByZero ∧
    fi_number 12000 0 = Except.error DecErr.divisionByZero :=
  ⟨C3_sentinel_policies.1 80, C3_sentinel_policies.2.1 true,
   C3_sentinel_policies.2.2.1 (-5), C3_sentinel_policies.2.2.2.1 10,
   C3_sentinel_policies.2.2.2.2.1 300 (by norm_num),
   C3_sentinel_policies.2.2.2.2.2.1 75 70 (by norm_num),
   C3_sentinel_policies.2.2.2.2.2.2 12000 (by norm_num)⟩

/-- Claim C4: redeem_chase_points 50000 maps its four redemption scenarios to
cash value 500, Sapphire Preferred portal 625, Sapphire Reserve portal 750 and
target partner exchange 1000, the rates 1%, 1.25%, 1.5% and 2% applied to the
points. -/
theorem C4_redeem_chase_points_50000 :
    (redeem_chase_points 50000).lookup "Cash value" = some 500 ∧
    (redeem_chase_points 50000).lookup "Sapphire Preferred portal" = some 625 ∧
    (redeem_chase_points 50000).lookup "Sapphire Reserve portal" = some 750 ∧
    (redeem_chase_points 50000).lookup "Target partner exchange" = some 1000 := by
  refine ⟨?_, ?_, ?_, ?_⟩ <;>
    norm_num [redeem_chase_points, redeem_points, roundHalfUpCents, List.lookup] <;>
    rfl

/-- Claim C5: percent_decrease(0, -5) and percent_increase(0, 10) are
not-a-number, while percent_decrease(10, 0) = 100 and
percent_increase(-10, 10) = 200. -/
theorem C5_percent_edge_cases :
    percent_decrease 0 (-5) = PyVal.nan ∧
    percent_increase 0 10 = PyVal.nan ∧
    percent_decrease 10 0 = PyVal.num 100 ∧
    percent_increase (-10) 10 = PyVal.num 200 := by
  norm_num [percent_decrease, percent_increase]

/-- Claim C6 as stated is false at spending = 0: savings_rate 0 0 computes the
Decimal quotient 0/0, which raises InvalidOperation, an exception the
handler (which catches only ZeroDivisionError) does not catch. -/
theorem C6_counterexample :
    savings_rate 0 0 = Except.error DecErr.invalidOperation := by
  norm_num [savings_rate, decDiv]

/-- Claim C6 amended: for every nonzero spending, savings_rate with zero
take-home pay returns 0 rather than raising — the DivisionByZero from
(0 - spending)/0 is caught; at spending = 0 the 0/0 quotient instead raises
InvalidOperation, which the except clause does not catch. -/
theorem C6_savings_rate_zero_pay (spending : ℚ) (h : spending ≠ 0) :
    savings_rate 0 spending = Except.ok 0 := by
  simp [savings_rate, decDiv, zero_sub, neg_eq_zero, h]

/-- Witness for claim C6 amended at spending = 300. -/
theorem C6_savings_rate_zero_pay_witness : savings_rate 0 300 = Except.ok 0 :=
  C6_savings_rate_zero_pay 300 (by norm_num)

/-- Claim C7: with a zero expected return rate, coast_fi returns the target FI
number unchanged, for every target and every pair of ages. -/
theorem C7_coast_fi_zero_rate (target : ℚ) (retirement_age current_age : ℤ) :
    coast_fi target 0 retirement_age current_age = target := by
  simp [coast_fi]

/-- Claim C8: a zero interest rate makes rule_of_72 return positive infinity
regardless of the accurate flag, covering rule_of_72(0) (accurate defaults to
True) and rule_of_72(0, accurate=True). -/
theorem C8_rule_of_72_zero (accurate : Bool) :
    rule_of_72 0 accurate = PyVal.inf := by
  simp [rule_of_72]

/-- Claim C9: annual_cost and cost_per_use compute the same formula under two
names whenever the third argument is nonzero. -/
theorem C9_annual_cost_eq_cost_per_use (cost used_price times_used : ℚ)
    (_h : times_used ≠ 0) :
    annual_cost cost used_price times_used = cost_per_use cost used_price times_used :=
  rfl

/-- Witness for claim C9 at the repository's own test input (75, 15, 15). -/
theorem C9_annual_cost_eq_cost_per_use_witness :
    annual_cost 75 15 15 = cost_per_use 75 15 15 :=
  C9_annual_cost_eq_cost_per_use 75 15 15 (by norm_num)

/-- Claim C10: the CLI handler run_redeem_chase_points looks up the keys 'cv',
'spp', 'srp' and 'tpe', but redeem_chase_points produces exactly the keys
'Cash value', 'Sapphire Preferred portal', 'Sapphire Reserve portal' and
'Target partner exchange'; every lookup fails (a KeyError), so for every
points input the handler never produces a report. -/
theorem C10_run_redeem_chase_points_keyerror (points : ℚ) :
    (redeem_chase_points points).map Prod.fst =
      ["Cash value", "Sapphire Preferred portal", "Sapphire Reserve portal",
        "Target partner exchange"] ∧
    (redeem_chase_points points).lookup "cv" = none ∧
    (redeem_chase_points points).lookup "spp" = none ∧
    (redeem_chase_points points).lookup "srp" = none ∧
    (redeem_chase_points points).lookup "tpe" = none ∧
    run_redeem_chase_points points = none :=
  ⟨rfl, rfl, rfl, rfl, rfl, rfl⟩
